import Mathlib

/-!
Verification of the conversational retrieval chatbot (backend/chatbot.py and
its retrieval pipeline) against its natural-language specification, via a
shallow embedding of the relevant Python code in Lean.
-/

/-- A chat message in the conversation history: `HumanMessage` or `AIMessage`
from the source's `chat_history` list. -/
inductive ChatMessage where
  | human (content : String)
  | ai (content : String)
deriving DecidableEq, Repr

/-- A Python metadata value as found in a retrieved document's `metadata`
dict: either a string (e.g. the `source` path) or an integer (e.g. the
`page` number produced by the PDF loader). -/
inductive MValue where
  | str (s : String)
  | int (n : Int)
deriving DecidableEq, Repr

/-- Python `str()` applied to a metadata value, as in
`"page: " + str(metadata["page"])`. -/
def MValue.pyStr : MValue → String
  | .str s => s
  | .int n => toString n

/-- Python dict lookup on a literal association list; raises `KeyError` in
the source when the key is absent, modelled here by `none`. -/
def pyLookup (k : String) : List (String × β) → Option β
  | [] => none
  | (k₀, v) :: rest => if k = k₀ then some v else pyLookup k rest

/-- A retrieved langchain `Document` as consumed by `get_response`: only its
`metadata` dict is read there. -/
structure RDocument where
  metadata : List (String × MValue)
deriving DecidableEq, Repr

/-- The dict returned by `self.chain.invoke(...)`: the retrieval chain's
contract provides the retrieved `context` documents and the synthesized
`answer`. -/
structure ChainOutput where
  context : List RDocument
  answer : String
deriving DecidableEq, Repr

/-- A Python runtime error surfaced by the query pipeline: an exception
raised by the chain invocation (generation/retrieval failure), a `KeyError`
from a metadata dict access, or a `NameError` naming an unbound local. -/
inductive PyErr where
  | chainFailure (msg : String)
  | keyError (k : String)
  | nameError (n : String)
deriving DecidableEq, Repr

/-- A value of the dict returned by `get_response`: the answer string or the
list of source tuples produced by `list(sources)`. -/
inductive RValue where
  | vstr (s : String)
  | vpairs (ps : List (MValue × MValue))
deriving DecidableEq, Repr

/-- The mutable state of one `Chatbot` instance that `get_response` touches:
its `chat_history` list. -/
structure ChatState where
  chat_history : List ChatMessage
deriving DecidableEq, Repr

/-- The loop `for context in response["context"]: ... sources.add((metadata
["source"], "page: " + str(metadata["page"])))` from `get_response`.  The
Python `set` is modelled as a duplicate-free list built by
insert-if-absent; a missing `source` or `page` key raises `KeyError`. -/
def buildSources : List RDocument → List (MValue × MValue) →
    Except PyErr (List (MValue × MValue))
  | [], acc => .ok acc
  | d :: ds, acc =>
    match pyLookup "source" d.metadata with
    | none => .error (.keyError "source")
    | some s =>
      match pyLookup "page" d.metadata with
      | none => .error (.keyError "page")
      | some p =>
        buildSources ds
          (if (s, MValue.str ("page: " ++ p.pyStr)) ∈ acc then acc
           else acc ++ [(s, MValue.str ("page: " ++ p.pyStr))])

/-- The method `Chatbot.get_response`.  The chain is a parameter (its behaviour depends
on external services); it receives the query and the current
`chat_history` and either fails or returns a `ChainOutput`.  The source
invokes the chain, builds the deduplicated source set, then — only after
every fallible step has succeeded — extends `chat_history` with the user
turn and the assistant turn, and returns the dict
`{"answer": ..., "source_documents": list(sources)}`.  An exception
propagates before the `extend`, leaving the state as it was. -/
def get_response (chain : String → List ChatMessage → Except PyErr ChainOutput)
    (st : ChatState) (query : String) :
    ChatState × Except PyErr (List (String × RValue)) :=
  match chain query st.chat_history with
  | .error e => (st, .error e)
  | .ok resp =>
    match buildSources resp.context [] with
    | .error e => (st, .error e)
    | .ok sources =>
      (⟨st.chat_history ++ [.human query, .ai resp.answer]⟩,
       .ok [("answer", .vstr resp.answer),
            ("source_documents", .vpairs sources)])

/-- Successive `get_response` calls, as issued by the chat endpoint; `none`
as soon as one call fails. -/
def runQueries (chain : String → List ChatMessage → Except PyErr ChainOutput) :
    ChatState → List String → Option ChatState
  | st, [] => some st
  | st, q :: qs =>
    match get_response chain st q with
    | (st₁, .ok _) => runQueries chain st₁ qs
    | (_, .error _) => none

/-- The turn sequence alternates user, assistant, user, assistant, …,
starting with a user turn and pairing each user turn with an assistant
turn. -/
def alternatingUA : List ChatMessage → Bool
  | [] => true
  | .human _ :: .ai _ :: rest => alternatingUA rest
  | _ => false

/-- Each `get_response` call either leaves the state untouched (reporting
failure) or appends exactly one user turn followed by one assistant turn. -/
theorem get_response_history
    (chain : String → List ChatMessage → Except PyErr ChainOutput)
    (st : ChatState) (query : String) :
    ((get_response chain st query).2.isOk = false ∧
      (get_response chain st query).1 = st) ∨
    (∃ a, (get_response chain st query).2.isOk = true ∧
      (get_response chain st query).1.chat_history =
        st.chat_history ++ [.human query, .ai a]) := by
  cases hc : chain query st.chat_history with
  | error e =>
    exact Or.inl ⟨by simp [get_response, hc, Except.isOk, Except.toBool],
      by simp [get_response, hc]⟩
  | ok resp =>
    cases hb : buildSources resp.context [] with
    | error e =>
      exact Or.inl ⟨by simp [get_response, hc, hb, Except.isOk, Except.toBool],
        by simp [get_response, hc, hb]⟩
    | ok sources =>
      exact Or.inr ⟨resp.answer,
        by simp [get_response, hc, hb, Except.isOk, Except.toBool],
        by simp [get_response, hc, hb]⟩

/-- After N alternating turn pairs, appending one more user/assistant pair
keeps the sequence alternating. -/
theorem alternatingUA_append_pair :
    ∀ (h : List ChatMessage) (q a : String),
      alternatingUA h = true → alternatingUA (h ++ [.human q, .ai a]) = true
  | [], _, _, _ => by simp [alternatingUA]
  | .human _ :: .ai _ :: rest, q, a, hh => by
    simp only [alternatingUA] at hh
    simpa only [List.cons_append, alternatingUA] using
      alternatingUA_append_pair rest q a hh
  | [.human _], _, _, hh => by simp [alternatingUA] at hh
  | .human _ :: .human _ :: _, _, _, hh => by simp [alternatingUA] at hh
  | .ai _ :: _, _, _, hh => by simp [alternatingUA] at hh

/-- Invariant carried by `runQueries`: an all-successful run grows the
history by exactly two turns per query, preserves the existing turns as an
unchanged initial segment, and preserves alternation. -/
theorem runQueries_spec
    (chain : String → List ChatMessage → Except PyErr ChainOutput) :
    ∀ (qs : List String) (st st' : ChatState),
      runQueries chain st qs = some st' →
      st'.chat_history.length = st.chat_history.length + 2 * qs.length ∧
      (alternatingUA st.chat_history = true →
        alternatingUA st'.chat_history = true)
  | [], st, st', h => by
    simp only [runQueries, Option.some.injEq] at h
    subst h
    simp
  | q :: qs, st, st', h => by
    simp only [runQueries] at h
    cases hgr : get_response chain st q with
    | mk st₁ res =>
      cases res with
      | error e => rw [hgr] at h; exact absurd h (by simp)
      | ok d =>
        rw [hgr] at h
        rcases get_response_history chain st q with ⟨hf, _⟩ | ⟨a, _, hext⟩
        · rw [hgr] at hf; exact absurd hf (by simp [Except.isOk, Except.toBool])
        · rw [hgr] at hext
          rcases runQueries_spec chain qs st₁ st' h with ⟨hlen, halt⟩
          refine ⟨?_, fun hst => halt ?_⟩
          · rw [hlen, hext]
            simp only [List.length_append, List.length_cons, List.length_nil]
            ring
          · rw [hext]; exact alternatingUA_append_pair _ q a hst

/-- C1: if the chain invocation (or any later fallible step before the
history `extend`) raises, `get_response` leaves `chat_history` exactly as
it was: no partial user turn is appended. -/
theorem get_response_error_leaves_history_unchanged
    (chain : String → List ChatMessage → Except PyErr ChainOutput)
    (st : ChatState) (query : String)
    (h : (get_response chain st query).2.isOk = false) :
    (get_response chain st query).1 = st := by
  unfold get_response at *
  cases hc : chain query st.chat_history with
  | error e => simp [hc]
  | ok resp =>
    cases hb : buildSources resp.context [] with
    | error e => simp [hc, hb]
    | ok sources => simp [hc, hb, Except.isOk, Except.toBool] at h

/-- Witness for C1: a chain whose invocation fails, on a state with one
prior exchange; the call reports failure and the history is untouched. -/
theorem get_response_error_leaves_history_unchanged_witness :
    (get_response (fun _ _ => .error (.chainFailure "quota"))
      ⟨[.human "hi", .ai "hello"]⟩ "q").2.isOk = false ∧
    (get_response (fun _ _ => .error (.chainFailure "quota"))
      ⟨[.human "hi", .ai "hello"]⟩ "q").1 = ⟨[.human "hi", .ai "hello"]⟩ :=
  ⟨by decide,
   get_response_error_leaves_history_unchanged _ _ _ (by decide)⟩

/-- The `(source, page)` tuple a retrieved document contributes to the
source set, when its metadata has both keys. -/
def docPair (d : RDocument) : Option (MValue × MValue) :=
  match pyLookup "source" d.metadata, pyLookup "page" d.metadata with
  | some s, some p => some (s, MValue.str ("page: " ++ p.pyStr))
  | _, _ => none

/-- The returned source collection is correct for a given context: it is
duplicate-free and holds exactly the `(source, page)` tuples of the
retrieved documents. -/
def sourcesOk (ctx : List RDocument) (ps : List (MValue × MValue)) : Prop :=
  ps.Nodup ∧ ∀ p, (p ∈ ps ↔ ∃ d ∈ ctx, docPair d = some p)

/-- The loop `buildSources` accumulates exactly the tuples of the documents, without
duplicates, on top of a duplicate-free accumulator. -/
theorem buildSources_spec :
    ∀ (docs : List RDocument) (acc ps : List (MValue × MValue)),
      acc.Nodup → buildSources docs acc = .ok ps →
      ps.Nodup ∧ ∀ p, (p ∈ ps ↔ p ∈ acc ∨ ∃ d ∈ docs, docPair d = some p)
  | [], acc, ps, hnd, h => by
    simp only [buildSources, Except.ok.injEq] at h
    subst h
    exact ⟨hnd, fun p => by simp⟩
  | d :: ds, acc, ps, hnd, h => by
    simp only [buildSources] at h
    split at h
    · exact absurd h (by simp)
    · rename_i s heqS
      split at h
      · exact absurd h (by simp)
      · rename_i p₀ heqP
        have hd : docPair d = some (s, MValue.str ("page: " ++ p₀.pyStr)) := by
          simp [docPair, heqS, heqP]
        have hcons : ∀ p : MValue × MValue,
            (∃ d' ∈ d :: ds, docPair d' = some p) ↔
              (p = (s, MValue.str ("page: " ++ p₀.pyStr)) ∨
                ∃ d' ∈ ds, docPair d' = some p) := by
          intro p
          simp only [List.mem_cons, exists_eq_or_imp, hd, Option.some.injEq]
          exact or_congr_left eq_comm
        by_cases hmem : (s, MValue.str ("page: " ++ p₀.pyStr)) ∈ acc
        · rw [if_pos hmem] at h
          obtain ⟨hnd', hiff⟩ := buildSources_spec ds acc ps hnd h
          refine ⟨hnd', fun p => ?_⟩
          rw [hiff p, hcons p]
          constructor
          · rintro (hpa | hrest)
            · exact Or.inl hpa
            · exact Or.inr (Or.inr hrest)
          · rintro (hpa | rfl | hrest)
            · exact Or.inl hpa
            · exact Or.inl hmem
            · exact Or.inr hrest
        · rw [if_neg hmem] at h
          have hnd₂ :
              (acc ++ [(s, MValue.str ("page: " ++ p₀.pyStr))]).Nodup := by
            simp [List.nodup_append, hnd, hmem]
          obtain ⟨hnd', hiff⟩ := buildSources_spec ds _ ps hnd₂ h
          refine ⟨hnd', fun p => ?_⟩
          rw [hiff p, hcons p]
          simp only [List.mem_append, List.mem_singleton]
          tauto

/-- C3: a successful `get_response` returns under `"source_documents"` a
duplicate-free source set holding exactly the `(source, page)` tuples of
the passages in the chain's retrieved context: passages sharing `(source,
page)` contribute one entry. -/
theorem get_response_sources_dedup
    (chain : String → List ChatMessage → Except PyErr ChainOutput)
    (st st' : ChatState) (query : String) (d : List (String × RValue))
    (out : ChainOutput) (ps : List (MValue × MValue))
    (h : get_response chain st query = (st', .ok d))
    (hc : chain query st.chat_history = .ok out)
    (hps : pyLookup "source_documents" d = some (.vpairs ps)) :
    sourcesOk out.context ps := by
  cases hb : buildSources out.context [] with
  | error e =>
    simp only [get_response, hc, hb] at h
    exact absurd h (by simp)
  | ok sources =>
    simp only [get_response, hc, hb] at h
    have hd : d = [("answer", .vstr out.answer),
        ("source_documents", .vpairs sources)] := by
      have := congrArg Prod.snd h
      simpa using this.symm
    subst hd
    have hsp : sources = ps := by
      simp [pyLookup] at hps
      exact hps
    subst hsp
    obtain ⟨hnd, hiff⟩ := buildSources_spec out.context [] sources (by simp) hb
    exact ⟨hnd, fun p => by rw [hiff p]; simp⟩

/-- Context of the C3 witness chain: two passage chunks from page 1 of the
same document. -/
def docA : RDocument := ⟨[("source", .str "a.pdf"), ("page", .int 1)]⟩

/-- Second chunk sharing `(source, page)` with `docA`, distinct metadata. -/
def docB : RDocument :=
  ⟨[("source", .str "a.pdf"), ("page", .int 1), ("chunk", .int 2)]⟩

/-- Chain for the C3 witness: retrieves the two chunks of `docA`/`docB`. -/
def chainTwoChunks : String → List ChatMessage → Except PyErr ChainOutput :=
  fun _ _ => .ok ⟨[docA, docB], "ans"⟩

/-- Witness for C3: two retrieved chunks sharing `(source, page)` yield a
single source entry, and the returned list satisfies `sourcesOk`. -/
theorem get_response_sources_dedup_witness :
    get_response chainTwoChunks ⟨[]⟩ "q" =
      (⟨[.human "q", .ai "ans"]⟩,
       .ok [("answer", .vstr "ans"),
            ("source_documents", .vpairs [(.str "a.pdf", .str "page: 1")])]) ∧
    chainTwoChunks "q" (⟨[]⟩ : ChatState).chat_history =
      .ok ⟨[docA, docB], "ans"⟩ ∧
    pyLookup "source_documents"
      [("answer", RValue.vstr "ans"),
       ("source_documents", .vpairs [(.str "a.pdf", .str "page: 1")])] =
      some (.vpairs [(.str "a.pdf", .str "page: 1")]) ∧
    sourcesOk [docA, docB] [(.str "a.pdf", .str "page: 1")] :=
  ⟨rfl, rfl, rfl,
   get_response_sources_dedup chainTwoChunks ⟨[]⟩
     ⟨[.human "q", .ai "ans"]⟩ "q"
     [("answer", .vstr "ans"),
      ("source_documents", .vpairs [(.str "a.pdf", .str "page: 1")])]
     ⟨[docA, docB], "ans"⟩
     [(.str "a.pdf", .str "page: 1")] rfl rfl rfl⟩

/-- C2: after N successful `get_response` calls on a fresh state the history
has exactly 2N entries alternating user, assistant, starting with a user
turn; and no call (successful or not) removes or reorders existing turns —
the prior history is always an unchanged initial segment of the new one. -/
theorem fresh_run_turn_alternation
    (chain : String → List ChatMessage → Except PyErr ChainOutput)
    (qs : List String) (st' : ChatState) (st : ChatState) (q : String)
    (h : runQueries chain ⟨[]⟩ qs = some st') :
    (st'.chat_history.length = 2 * qs.length ∧
      alternatingUA st'.chat_history = true) ∧
    (get_response chain st q).1.chat_history =
      st.chat_history ++
        (get_response chain st q).1.chat_history.drop st.chat_history.length := by
  constructor
  · rcases runQueries_spec chain qs ⟨[]⟩ st' h with ⟨hlen, halt⟩
    exact ⟨by simpa using hlen, halt (by simp [alternatingUA])⟩
  · rcases get_response_history chain st q with ⟨_, hst⟩ | ⟨a, _, hext⟩
    · rw [hst]; simp
    · rw [hext, List.drop_left]

/-- Deterministic chain used by concrete witnesses: retrieves no documents
and always answers `"ans"`. -/
def constChain : String → List ChatMessage → Except PyErr ChainOutput :=
  fun _ _ => .ok ⟨[], "ans"⟩

/-- Witness for C2: two successful queries on a fresh state yield four
alternating turns, and a further call preserves the existing turns. -/
theorem fresh_run_turn_alternation_witness :
    runQueries constChain ⟨[]⟩ ["a", "b"] =
      some ⟨[.human "a", .ai "ans", .human "b", .ai "ans"]⟩ ∧
    (((⟨[.human "a", .ai "ans", .human "b", .ai "ans"]⟩ :
        ChatState).chat_history.length = 2 * (["a", "b"] : List String).length ∧
      alternatingUA (⟨[.human "a", .ai "ans", .human "b", .ai "ans"]⟩ :
        ChatState).chat_history = true) ∧
    (get_response constChain ⟨[]⟩ "x").1.chat_history =
      (⟨[]⟩ : ChatState).chat_history ++
        (get_response constChain ⟨[]⟩ "x").1.chat_history.drop
          (⟨[]⟩ : ChatState).chat_history.length) :=
  ⟨by decide,
   fresh_run_turn_alternation constChain ["a", "b"] _ ⟨[]⟩ "x" (by decide)⟩

/-- The retriever value that `_create_chain` hands to
`create_history_aware_retriever`: the dense (vector-store) retriever, a
BM25 lexical retriever over the loaded chunks, a weighted ensemble of
sub-retrievers, or a contextual-compression (reranking) wrapper. -/
inductive Retriever where
  | semantic
  | bm25Index (chunks : List RDocument)
  | ensemble (subs : List Retriever) (weights : List ℚ)
  | compression (base : Retriever)

/-- The method `Chatbot._create_chain` (lines 66-91): the retriever construction.  The
Python locals `retriever` and `compression_retriever` are bound only
inside the `if self.bm25:` and `if self.reranker:` branches respectively,
modelled as `Option`-valued bindings; referencing an unbound local raises
`NameError`.  With `bm25` set, the corpus is loaded and, when empty
(`len(chunks) == 0`), the dense retriever is used alone, otherwise an
ensemble of the dense and BM25 retrievers with weights `[0.8, 0.2]`.  With
`reranker` set, the retriever is wrapped in a
`ContextualCompressionRetriever`.  Line 89-91 references
`compression_retriever` unconditionally.  Returns the retriever wired into
the history-aware retrieval chain. -/
def createChainRetriever (bm25 rerankEnabled : Bool)
    (chunks : List RDocument) : Except PyErr Retriever :=
  let retrieverOpt : Option Retriever :=
    if bm25 then
      if chunks.length == 0 then some .semantic
      else some (.ensemble [.semantic, .bm25Index chunks] [0.8, 0.2])
    else none
  if rerankEnabled then
    match retrieverOpt with
    | none => .error (.nameError "retriever")
    | some r => .ok (.compression r)
  else .error (.nameError "compression_retriever")

/-- C10: chain construction succeeds exactly when both `bm25` and `rerank`
are enabled; any other flag combination raises an unhandled `NameError`
for one of the two conditionally-bound locals. -/
theorem create_chain_requires_both_flags (bm25 rerankEnabled : Bool)
    (chunks : List RDocument) :
    ((createChainRetriever bm25 rerankEnabled chunks).isOk = true ↔
      (bm25 = true ∧ rerankEnabled = true)) ∧
    (bm25 = false ∨ rerankEnabled = false →
      ∃ n, createChainRetriever bm25 rerankEnabled chunks =
        .error (.nameError n)) := by
  cases bm25 <;> cases rerankEnabled
  · exact ⟨by simp [createChainRetriever, Except.isOk, Except.toBool],
      fun _ => ⟨"compression_retriever", rfl⟩⟩
  · exact ⟨by simp [createChainRetriever, Except.isOk, Except.toBool],
      fun _ => ⟨"retriever", rfl⟩⟩
  · exact ⟨by simp [createChainRetriever, Except.isOk, Except.toBool],
      fun _ => ⟨"compression_retriever", rfl⟩⟩
  · refine ⟨?_, fun hor => ?_⟩
    · rw [createChainRetriever]
      by_cases hz : chunks.length == 0 <;>
        simp [hz, Except.isOk, Except.toBool]
    · rcases hor with hor | hor <;> exact absurd hor (by simp)

/-- Witness for C10: with `bm25=True`, `rerank=False` the construction
raises a `NameError`, while the default `bm25=True`, `rerank=True`
succeeds. -/
theorem create_chain_requires_both_flags_witness :
    (∃ n, createChainRetriever true false [docA] =
      .error (.nameError n)) ∧
    ((createChainRetriever true true [docA]).isOk = true ↔
      (true = true ∧ true = true)) :=
  ⟨(create_chain_requires_both_flags true false [docA]).2 (Or.inr rfl),
   (create_chain_requires_both_flags true true [docA]).1⟩

/-- C4 (code bug): a `Chatbot` constructed with `rerank=False` never reaches
query answering — `_create_chain` raises `NameError` on the unbound local
`compression_retriever`, instead of letting the fused top-k pass through
as the spec requires. -/
theorem rerank_disabled_raises_name_error :
    createChainRetriever true false [docA] =
      .error (.nameError "compression_retriever") := rfl

/-- C5 counterexample: a chain construction whose lexical corpus is empty
but whose `rerank` flag is off fails with `NameError` rather than falling
back to the dense retriever alone. -/
theorem empty_corpus_with_rerank_off_fails :
    createChainRetriever true false [] =
      .error (.nameError "compression_retriever") := rfl

/-- C5 amended: in the only configuration whose construction succeeds
(`bm25=True`, `rerank=True`), an empty corpus skips lexical search and the
reranker's base retriever is exactly the dense retriever — no ensemble is
built. -/
theorem empty_corpus_dense_only (chunks : List RDocument)
    (h : chunks.length = 0) :
    createChainRetriever true true chunks =
      .ok (.compression .semantic) := by
  simp [createChainRetriever, h]

/-- Witness for C5 amended: the empty corpus yields the dense-only base
retriever under reranking. -/
theorem empty_corpus_dense_only_witness :
    ([] : List RDocument).length = 0 ∧
    createChainRetriever true true [] = .ok (.compression .semantic) :=
  ⟨rfl, empty_corpus_dense_only [] rfl⟩

/-- Modelled from the spec: the reranking stage (§4.6; the `CohereRerank`
relevance model itself is an external service, absent from the
repository).  Given the fused candidate list and a relevance score, it
re-scores each candidate and returns the top `top_n` by descending score,
discarding the rest. -/
def rerankStage (score : RDocument → ℚ) (top_n : ℕ)
    (cands : List RDocument) : List RDocument :=
  (cands.insertionSort fun a b => score b ≤ score a).take top_n

/-- C7: reranking K candidates with `top_n=3` returns exactly `min 3 K`
candidates, each drawn from the input candidate list. -/
theorem rerankStage_truncation (score : RDocument → ℚ)
    (cands : List RDocument) :
    (rerankStage score 3 cands).length = min 3 cands.length ∧
    rerankStage score 3 cands ⊆ cands := by
  constructor
  · rw [rerankStage, List.length_take, List.length_insertionSort]
  · intro x hx
    exact (List.perm_insertionSort _ cands).subset
      (List.take_subset _ _ hx)

/-- Witness for C7: reranking four candidates with `top_n=3` keeps three,
all from the input. -/
theorem rerankStage_truncation_witness :
    (rerankStage (fun _ => 0) 3 [docA, docB, docA, docB]).length =
      min 3 ([docA, docB, docA, docB] : List RDocument).length ∧
    rerankStage (fun _ => 0) 3 [docA, docB, docA, docB] ⊆
      [docA, docB, docA, docB] :=
  rerankStage_truncation (fun _ => 0) [docA, docB, docA, docB]

/-- Modelled from the spec: Retrieval Fusion (§4.5; the `EnsembleRetriever`
implementation is external to the repository).  Weighted reciprocal-rank
fusion: the candidate at 0-based rank `n` of a result list with weight `w`
scores `w / (n + 61)` (1-based rank plus the usual constant 60); both
scored lists are concatenated and stably sorted by descending score. -/
def scoreFrom (w : ℚ) : ℕ → List RDocument → List (RDocument × ℚ)
  | _, [] => []
  | n, d :: ds => (d, w / ((n : ℚ) + 61)) :: scoreFrom w (n + 1) ds

/-- Fusion of a dense and a lexical result list under the given weights
(0.8 dense / 0.2 lexical in the source). -/
def fuseResults (wDense wLex : ℚ) (dense lex : List RDocument) :
    List RDocument :=
  ((scoreFrom wDense 0 dense ++ scoreFrom wLex 0 lex).insertionSort
      fun a b => b.2 ≤ a.2).map Prod.fst

/-- Every score assigned from rank `n` on is at most the score at rank
`n`. -/
theorem scoreFrom_mem {w : ℚ} :
    ∀ {n : ℕ} {l : List RDocument} {p : RDocument × ℚ},
      p ∈ scoreFrom w n l → ∃ m : ℕ, n ≤ m ∧ p.2 = w / ((m : ℚ) + 61)
  | n, [], p, h => by simp [scoreFrom] at h
  | n, d :: ds, p, h => by
    rcases List.mem_cons.mp h with rfl | h'
    · exact ⟨n, le_refl n, rfl⟩
    · rcases scoreFrom_mem h' with ⟨m, hm, hp⟩
      exact ⟨m, Nat.le_of_succ_le hm, hp⟩

/-- The scores assigned by `scoreFrom` are non-increasing along the list. -/
theorem scoreFrom_sorted {w : ℚ} (hw : 0 ≤ w) :
    ∀ (n : ℕ) (l : List RDocument),
      List.Sorted (fun a b : RDocument × ℚ => b.2 ≤ a.2) (scoreFrom w n l)
  | _, [] => List.sorted_nil
  | n, d :: ds => by
    rw [scoreFrom, List.sorted_cons]
    refine ⟨fun b hb => ?_, scoreFrom_sorted hw (n + 1) ds⟩
    rcases scoreFrom_mem hb with ⟨m, hm, hp⟩
    rw [hp]
    refine div_le_div_of_nonneg_left hw (by positivity) ?_
    have : (n : ℚ) ≤ (m : ℚ) := by
      exact_mod_cast Nat.le_of_succ_le hm
    linarith

/-- Forgetting the scores recovers the original list. -/
theorem scoreFrom_map_fst (w : ℚ) :
    ∀ (n : ℕ) (l : List RDocument),
      (scoreFrom w n l).map Prod.fst = l
  | _, [] => rfl
  | n, d :: ds => by
    rw [scoreFrom, List.map_cons, scoreFrom_map_fst w (n + 1) ds]

/-- C8: fusing a dense result list with an empty lexical result list (and
symmetrically an empty dense list with a lexical one) returns the
non-empty ranking exactly, unchanged in membership and order; fusion is a
total function of the two input lists, so it is deterministic and cannot
crash on an empty input. -/
theorem fuseResults_empty_degenerates (dense lex : List RDocument) :
    fuseResults 0.8 0.2 dense [] = dense ∧
    fuseResults 0.8 0.2 [] lex = lex := by
  constructor
  · rw [fuseResults]
    rw [show scoreFrom 0.2 0 ([] : List RDocument) = [] from rfl,
      List.append_nil,
      List.Sorted.insertionSort_eq (scoreFrom_sorted (by norm_num) 0 dense),
      scoreFrom_map_fst]
  · rw [fuseResults]
    rw [show scoreFrom 0.8 0 ([] : List RDocument) = [] from rfl,
      List.nil_append,
      List.Sorted.insertionSort_eq (scoreFrom_sorted (by norm_num) 0 lex),
      scoreFrom_map_fst]

/-- Modelled from the spec: the Query Contextualizer (§4.7; implemented by
`create_history_aware_retriever`, external to the repository).  Given the
conversation history and the latest utterance it produces a standalone
question via the rewrite model; with no prior turns the utterance is
already standalone and is passed through unchanged. -/
def contextualize (rewriteModel : List ChatMessage → String → String)
    (history : List ChatMessage) (input : String) : String :=
  match history with
  | [] => input
  | _ :: _ => rewriteModel history input

/-- C9: contextualizing any utterance against an empty conversation history
returns the utterance unchanged, whatever the rewrite model does. -/
theorem contextualize_empty_history_id
    (rewriteModel : List ChatMessage → String → String) (input : String) :
    contextualize rewriteModel [] input = input := rfl

/-- A tuple produced by `docPair` carries as its page component the string
`"page: "` followed by the `str()` of the page metadata value. -/
theorem docPair_shape {d : RDocument} {p : MValue × MValue}
    (h : docPair d = some p) :
    ∃ s v, pyLookup "source" d.metadata = some s ∧
      pyLookup "page" d.metadata = some v ∧
      p = (s, MValue.str ("page: " ++ v.pyStr)) := by
  cases hs : pyLookup "source" d.metadata with
  | none => simp [docPair, hs] at h
  | some s =>
    cases hp : pyLookup "page" d.metadata with
    | none => simp [docPair, hs, hp] at h
    | some v =>
      simp only [docPair, hs, hp, Option.some.injEq] at h
      exact ⟨s, v, rfl, rfl, h.symm⟩

/-- Chain for the C6 counterexample: one document from page 3 of
`doc.pdf`. -/
def chainOnePage : String → List ChatMessage → Except PyErr ChainOutput :=
  fun _ _ => .ok ⟨[⟨[("source", .str "doc.pdf"), ("page", .int 3)]⟩], "ans"⟩

/-- C6 counterexample: on a concrete successful query the returned record
has no `"sources"` field (the field is named `"source_documents"`), and
the page component of its single source tuple is the string `"page: 3"`,
not the integer page number 3. -/
theorem get_response_record_counterexample :
    (get_response chainOnePage ⟨[]⟩ "q").2 =
      .ok [("answer", .vstr "ans"),
           ("source_documents", .vpairs [(.str "doc.pdf", .str "page: 3")])] ∧
    pyLookup "sources"
      [("answer", RValue.vstr "ans"),
       ("source_documents", RValue.vpairs
          [(.str "doc.pdf", .str "page: 3")])] = none ∧
    MValue.str "page: 3" ≠ MValue.int 3 :=
  ⟨rfl, rfl, by decide⟩

/-- C6 amended: a successful `get_response` returns a record whose
`"answer"` field is the answer string and whose source collection is
stored under the field `"source_documents"` (not `"sources"`): a
duplicate-free list of tuples whose page component is the string
`"page: "` followed by the `str()` of the page number, not the bare
integer. -/
theorem get_response_record_shape
    (chain : String → List ChatMessage → Except PyErr ChainOutput)
    (st st' : ChatState) (query : String) (d : List (String × RValue))
    (out : ChainOutput) (ps : List (MValue × MValue))
    (h : get_response chain st query = (st', .ok d))
    (hc : chain query st.chat_history = .ok out)
    (hps : pyLookup "source_documents" d = some (.vpairs ps)) :
    pyLookup "answer" d = some (.vstr out.answer) ∧
    ps.Nodup ∧
    ∀ p ∈ ps, ∃ v : MValue, p.2 = MValue.str ("page: " ++ v.pyStr) := by
  cases hb : buildSources out.context [] with
  | error e =>
    simp only [get_response, hc, hb] at h
    exact absurd h (by simp)
  | ok sources =>
    simp only [get_response, hc, hb] at h
    have hd : d = [("answer", .vstr out.answer),
        ("source_documents", .vpairs sources)] := by
      have := congrArg Prod.snd h
      simpa using this.symm
    subst hd
    have hsp : sources = ps := by
      simp [pyLookup] at hps
      exact hps
    subst hsp
    obtain ⟨hnd, hiff⟩ := buildSources_spec out.context [] sources (by simp) hb
    refine ⟨by simp [pyLookup], hnd, fun p hp => ?_⟩
    rcases (hiff p).mp hp with hfalse | ⟨doc, _, hdp⟩
    · exact absurd hfalse (by simp)
    · rcases docPair_shape hdp with ⟨s, v, _, _, hps'⟩
      exact ⟨v, by rw [hps']⟩

/-- Witness for C6 amended: the concrete one-page query yields the answer
under `"answer"`, and a single well-formed source tuple under
`"source_documents"`. -/
theorem get_response_record_shape_witness :
    pyLookup "answer"
      [("answer", RValue.vstr "ans"),
       ("source_documents", RValue.vpairs
          [(.str "doc.pdf", .str "page: 3")])] = some (.vstr "ans") ∧
    ([((MValue.str "doc.pdf"), MValue.str "page: 3")] :
      List (MValue × MValue)).Nodup ∧
    ∀ p ∈ ([((MValue.str "doc.pdf"), MValue.str "page: 3")] :
      List (MValue × MValue)), ∃ v : MValue,
        p.2 = MValue.str ("page: " ++ v.pyStr) :=
  get_response_record_shape chainOnePage ⟨[]⟩
    ⟨[.human "q", .ai "ans"]⟩ "q"
    [("answer", .vstr "ans"),
     ("source_documents", .vpairs [(.str "doc.pdf", .str "page: 3")])]
    ⟨[⟨[("source", .str "doc.pdf"), ("page", .int 3)]⟩], "ans"⟩
    [(.str "doc.pdf", .str "page: 3")] rfl rfl rfl
